import Mathlib

/-!
Verification of the controller-arbitration and stream-multiplexing engine of
the p4rt_standalone repository, as a shallow embedding in Lean 4.

The embedding follows the C++ sources:
  * src/p4rt_server/sdn_controller_manager.cc  (SdnConnection, SdnControllerManager)
  * src/p4rt_server/p4rt_server.cc             (P4RtServer)
  * src/p4rt/p4runtime_impl.cc                 (P4RuntimeImpl)

Modelling conventions:
  * `absl::uint128` election ids are modelled as `Nat`; `absl::MakeUint128(h, l)`
    is `h * 2^64 + l`, which agrees with uint128 ordering and equality for the
    64-bit protobuf field values that feed it.
  * `absl::optional<T>` is `Option T`; `absl::optional` comparison operators
    (`nullopt` is smaller than any engaged value) are `optLt` / `optMax`.
  * The map `election_id_past_by_role_` is an association list with unique keys;
    `operator[]` (which default-inserts an absent entry) is `RoleMap.getOrInsert`.
  * `SdnConnection` objects live in a heap `store : Nat → SdnConnection`; the
    manager's `connections_` vector holds "pointers" (`Nat` ids) into it.
  * grpc/absl statuses are a code plus a message.
-/

namespace P4rt

/-- Canonical status codes shared by `grpc::Status` and `absl::Status`
(the numeric values coincide in the sources). -/
inductive StatusCode where
  | ok
  | cancelled
  | unknown
  | invalidArgument
  | deadlineExceeded
  | notFound
  | alreadyExists
  | permissionDenied
  | resourceExhausted
  | failedPrecondition
  | aborted
  | outOfRange
  | unimplemented
  | internal
  | unavailable
  | dataLoss
  | unauthenticated
deriving Repr, DecidableEq

/-- Model of `grpc::Status`: a code with a message. `grpc::Status::OK` is `okStatus`. -/
structure GrpcStatus where
  code : StatusCode
  message : String
deriving Repr, DecidableEq

def GrpcStatus.okStatus : GrpcStatus := ⟨StatusCode.ok, ""⟩

/-- Model of `absl::Status`: same shape as `grpc::Status` in this embedding. -/
structure AbslStatus where
  code : StatusCode
  message : String
deriving Repr, DecidableEq

def AbslStatus.okStatus : AbslStatus := ⟨StatusCode.ok, ""⟩

/-- Function `gutil::AbslStatusToGrpcStatus`: code and message carry over unchanged. -/
def abslStatusToGrpcStatus (s : AbslStatus) : GrpcStatus := ⟨s.code, s.message⟩

/-- Value of `absl::MakeUint128(high, low)` as a natural number. -/
def makeUint128 (high low : Nat) : Nat := high * 2 ^ 64 + low

/-- Comparison `operator<` of `absl::optional`: `nullopt` is smaller than every engaged value. -/
def optLt : Option Nat → Option Nat → Bool
  | none, none => false
  | none, some _ => true
  | some _, none => false
  | some x, some y => decide (x < y)

/-- Function `std::max` on `absl::optional<absl::uint128>`: returns the second argument
when the first compares smaller, else the first. -/
def optMax (a b : Option Nat) : Option Nat := if optLt a b then b else a

/-- The `election_id_past_by_role_` map, keyed by the optional role name.
An association list that the operations below keep duplicate-key free. -/
abbrev RoleMap := List (Option String × Option Nat)

/-- Map lookup (`find` in the C++ sources): first matching key, if any. -/
def RoleMap.find? : RoleMap → Option String → Option (Option Nat)
  | [], _ => none
  | (k, v) :: rest, key => if k = key then some v else RoleMap.find? rest key

/-- Map `operator[]`: return the stored value for the key, default-inserting an
absent (`none`) entry when the key is missing.  Returns the value seen together
with the possibly-extended map. -/
def RoleMap.getOrInsert (m : RoleMap) (key : Option String) :
    Option Nat × RoleMap :=
  match m.find? key with
  | some v => (v, m)
  | none => (none, m ++ [(key, none)])

/-- Assignment through the reference obtained from `operator[]`: replaces the
value at the (present) key. -/
def RoleMap.set : RoleMap → Option String → Option Nat → RoleMap
  | [], _, _ => []
  | (k, v) :: rest, key, newV =>
    if k = key then (key, newV) :: rest else (k, v) :: RoleMap.set rest key newV

/-- The value `operator[]` yields for a key: the stored value, or `none` for a
missing entry (the default-inserted value). -/
def RoleMap.stored (m : RoleMap) (key : Option String) : Option Nat :=
  (m.find? key).getD none

/-- Modelled from the spec: the `SdnConnection` class declaration lives in
`sdn_controller_manager.h`, which is not among the sources; per spec section 3
a connection carries an optional role, an optional election id, and an
`initialized` flag that `Initialize()` sets to true (the stream handle is
modelled by the connection's id in the heap). -/
structure SdnConnection where
  roleName : Option String
  electionId : Option Nat
  initialized : Bool
deriving Repr, DecidableEq

/-- A fresh `SdnConnection` (created when a stream opens, before any
arbitration): no role, no election id, not initialized. -/
def SdnConnection.fresh : SdnConnection := ⟨none, none, false⟩

/-- State of `SdnControllerManager`: the `connections_` vector (ids into the
connection heap), `election_id_past_by_role_`, `device_id_`, and the heap of
connection objects. -/
structure SdnControllerManager where
  connections : List Nat
  electionIdPastByRole : RoleMap
  deviceId : Nat
  store : Nat → SdnConnection

/-- A freshly constructed manager over a given connection heap: empty
connection vector, empty role map, zero device id. -/
def SdnControllerManager.init (store : Nat → SdnConnection) :
    SdnControllerManager :=
  ⟨[], [], 0, store⟩

/-- The arbitration part of a `StreamMessageResponse`
(`MasterArbitrationUpdate` on the response side): device id, the connection's
role when present, the high-water-mark election id (unset when absent), and a
status. -/
structure ArbitrationResponse where
  deviceId : Nat
  role : Option String
  electionId : Option Nat
  statusCode : StatusCode
  statusMessage : String
deriving Repr, DecidableEq

/-- Message `p4::v1::StreamMessageResponse` as far as the core builds or forwards it:
an arbitration response, an in-band error (canonical code, message, optionally
the echoed `PacketOut`, modelled as an opaque `Nat` payload), or an opaque
provider-originated payload such as a packet-in. -/
inductive StreamMessageResponse where
  | arbitration (a : ArbitrationResponse)
  | error (canonicalCode : StatusCode) (message : String) (packetOut : Option Nat)
  | payload (tag : Nat)
deriving Repr, DecidableEq

/-- Message `MasterArbitrationUpdate` on the request side: `device_id`, the `role`
field (presence plus its `name`), and the `election_id` field (presence plus
its `high`/`low` words). -/
structure MasterArbitrationUpdate where
  deviceId : Nat
  role : Option String
  electionId : Option (Nat × Nat)
deriving Repr, DecidableEq

/-- Role-name extraction in `HandleArbitrationUpdate`: the role is set only
when the message has a role whose name is non-empty. -/
def MasterArbitrationUpdate.parsedRoleName (u : MasterArbitrationUpdate) :
    Option String :=
  match u.role with
  | some nm => if nm = "" then none else some nm
  | none => none

/-- Election-id extraction in `HandleArbitrationUpdate`: present iff the
message carries an election id. -/
def MasterArbitrationUpdate.parsedElectionId (u : MasterArbitrationUpdate) :
    Option Nat :=
  u.electionId.map fun p => makeUint128 p.1 p.2

/-- Anonymous-namespace `ValidateConnection`: a backup connection (no election
id) is always valid; otherwise the election id must not be used by any active
connection with the same role. -/
def validateConnection (roleName : Option String) (electionId : Option Nat)
    (activeConnections : List Nat) (store : Nat → SdnConnection) : GrpcStatus :=
  match electionId with
  | none => GrpcStatus.okStatus
  | some e =>
    if activeConnections.any fun p =>
        decide ((store p).roleName = roleName) &&
        decide ((store p).electionId = some e) then
      ⟨StatusCode.invalidArgument,
        "Election ID is already used by another connection with the same role."⟩
    else GrpcStatus.okStatus

namespace SdnControllerManager

/-- Method `SdnControllerManager::PrimaryConnectionExists`.  Reads
`election_id_past_by_role_[role_name]` (default-inserting), then scans the
connection vector for a connection with that role holding exactly that id;
at the first such connection it reports whether the stored id is engaged.
Returns the flag together with the possibly-extended state. -/
def primaryConnectionExists (s : SdnControllerManager)
    (roleName : Option String) : Bool × SdnControllerManager :=
  let r := s.electionIdPastByRole.getOrInsert roleName
  let s1 := { s with electionIdPastByRole := r.2 }
  ((s.connections.any fun p =>
      decide ((s.store p).roleName = roleName) &&
      decide ((s.store p).electionId = r.1)) && r.1.isSome,
    s1)

/-- Method `SdnControllerManager::SendArbitrationResponse`: builds the arbitration
response for one connection (device id, the connection's role when present,
the high-water-mark election id for that role — not the connection's own id —
and the OK / ALREADY_EXISTS / NOT_FOUND status) and returns it together with
the state left by the two `operator[]` reads. -/
def sendArbitrationResponse (s : SdnControllerManager) (c : Nat) :
    SdnControllerManager × ArbitrationResponse :=
  let conn := s.store c
  let r := s.electionIdPastByRole.getOrInsert conn.roleName
  let s1 := { s with electionIdPastByRole := r.2 }
  let ex := s1.primaryConnectionExists conn.roleName
  let res : ArbitrationResponse :=
    if ex.1 then
      if r.1 = conn.electionId then
        ⟨s.deviceId, conn.roleName, r.1, StatusCode.ok,
          "you are the primary connection."⟩
      else
        ⟨s.deviceId, conn.roleName, r.1, StatusCode.alreadyExists,
          "you are a backup connection, and a primary connection exists."⟩
    else
      ⟨s.deviceId, conn.roleName, r.1, StatusCode.notFound,
        "you are a backup connection, and NO primary connection exists."⟩
  (ex.2, res)

/-- The loop body of `InformConnectionsAboutPrimaryChange`: walk a list of
connection ids, sending an arbitration response to each connection whose role
matches, threading the manager state through the sends. -/
def informConnectionsGo (s : SdnControllerManager) (roleName : Option String) :
    List Nat → SdnControllerManager × List (Nat × StreamMessageResponse)
  | [] => (s, [])
  | c :: rest =>
    if (s.store c).roleName = roleName then
      let r := s.sendArbitrationResponse c
      let rec' := informConnectionsGo r.1 roleName rest
      (rec'.1, (c, StreamMessageResponse.arbitration r.2) :: rec'.2)
    else
      informConnectionsGo s roleName rest

/-- Method `SdnControllerManager::InformConnectionsAboutPrimaryChange`: sends an
arbitration response to every connection with the given role. -/
def informConnectionsAboutPrimaryChange (s : SdnControllerManager)
    (roleName : Option String) :
    SdnControllerManager × List (Nat × StreamMessageResponse) :=
  informConnectionsGo s roleName s.connections

/-- The maximum election id over active connections with the given role
(`std::max` fold in `UpdateToPrimaryConnectionState`). -/
def maxElectionIdForRole (s : SdnControllerManager)
    (roleName : Option String) : Option Nat :=
  s.connections.foldl
    (fun acc p =>
      if (s.store p).roleName = roleName then optMax acc (s.store p).electionId
      else acc)
    none

/-- Method `SdnControllerManager::UpdateToPrimaryConnectionState`: recompute the
maximum election id for the role, read the high-water mark through
`operator[]`, and report whether connections must be informed; the high-water
mark is raised only when the maximum is engaged and strictly larger. -/
def updateToPrimaryConnectionState (s : SdnControllerManager)
    (roleName : Option String) (electionId : Option Nat) :
    Bool × SdnControllerManager :=
  let maxId := s.maxElectionIdForRole roleName
  let r := s.electionIdPastByRole.getOrInsert roleName
  let s1 := { s with electionIdPastByRole := r.2 }
  let oldPrimaryIsReconnecting := electionId = maxId
  if maxId ≠ r.1 ∨ oldPrimaryIsReconnecting then
    if maxId.isSome ∧ optLt r.1 maxId then
      (true, { s1 with electionIdPastByRole := r.2.set roleName maxId })
    else (true, s1)
  else (false, s1)

/-- The connection mutation step of `HandleArbitrationUpdate`: `SetRoleName`,
`SetElectionId`, `Initialize`, then `connections_.push_back(controller)`
(unconditionally, even when the connection is already registered). -/
def applyConnectionUpdate (s : SdnControllerManager) (c : Nat)
    (roleName : Option String) (electionId : Option Nat) :
    SdnControllerManager :=
  { s with
    store := fun p =>
      if p = c then ⟨roleName, electionId, true⟩ else s.store p,
    connections := s.connections ++ [c] }

/-- Method `SdnControllerManager::HandleArbitrationUpdate`.  Note the source first
assigns `device_id_ = update.device_id()` (with a TODO that arbitration should
fail on an invalid device id) and only then compares the two, so the
failed-precondition branch cannot fire.  Returns the grpc status, the new
state, and the arbitration responses sent (receiver id with message). -/
def handleArbitrationUpdate (s : SdnControllerManager)
    (u : MasterArbitrationUpdate) (c : Nat) :
    GrpcStatus × SdnControllerManager × List (Nat × StreamMessageResponse) :=
  let s0 := { s with deviceId := u.deviceId }
  if u.deviceId ≠ s0.deviceId then
    (⟨StatusCode.failedPrecondition,
       "Arbitration request has the wrong device ID."⟩, s0, [])
  else
    let roleName := u.parsedRoleName
    let electionId := u.parsedElectionId
    if (s0.store c).initialized = true ∧ (s0.store c).roleName = roleName ∧
        (s0.store c).electionId = electionId then
      let r := s0.sendArbitrationResponse c
      (GrpcStatus.okStatus, r.1, [(c, StreamMessageResponse.arbitration r.2)])
    else
      let v := validateConnection roleName electionId s0.connections s0.store
      if v.code ≠ StatusCode.ok then (v, s0, [])
      else
        let s1 := s0.applyConnectionUpdate c roleName electionId
        let upd := s1.updateToPrimaryConnectionState roleName electionId
        if upd.1 then
          let r := upd.2.informConnectionsAboutPrimaryChange roleName
          (GrpcStatus.okStatus, r.1, r.2)
        else
          let r := upd.2.sendArbitrationResponse c
          (GrpcStatus.okStatus, r.1,
            [(c, StreamMessageResponse.arbitration r.2)])

/-- Erase the first occurrence of a connection id from the vector (the erase
loop in `Disconnect` breaks after the first hit). -/
def eraseFirst : List Nat → Nat → List Nat
  | [], _ => []
  | x :: rest, c => if x = c then rest else x :: eraseFirst rest c

/-- Method `SdnControllerManager::Disconnect`: nothing to do for an uninitialized
connection; otherwise remove the first matching vector entry and, when the
connection held an engaged election id equal to the role's high-water mark
(read through `operator[]`, short-circuited behind the `has_value` test),
inform the remaining connections of that role. -/
def disconnect (s : SdnControllerManager) (c : Nat) :
    SdnControllerManager × List (Nat × StreamMessageResponse) :=
  if (s.store c).initialized = true then
    let s1 := { s with connections := eraseFirst s.connections c }
    if (s1.store c).electionId.isSome then
      let r := s1.electionIdPastByRole.getOrInsert (s1.store c).roleName
      let s2 := { s1 with electionIdPastByRole := r.2 }
      if (s2.store c).electionId = r.1 then
        s2.informConnectionsAboutPrimaryChange (s2.store c).roleName
      else (s2, [])
    else (s1, [])
  else (s, [])

/-- Method `SdnControllerManager::AllowRequest(role_name, election_id)`:
permission-denied when the election id is absent, when the role has no entry
in `election_id_past_by_role_` (a `find`, not `operator[]` — no insertion), or
when the id differs from the stored high-water mark; OK otherwise. -/
def allowRequest (s : SdnControllerManager) (roleName : Option String)
    (electionId : Option Nat) : GrpcStatus :=
  match electionId with
  | none =>
    ⟨StatusCode.permissionDenied, "Request does not have an election ID."⟩
  | some e =>
    match s.electionIdPastByRole.find? roleName with
    | none =>
      ⟨StatusCode.permissionDenied,
        "Only the primary connection can issue requests, but no primary connection has been established."⟩
    | some past =>
      if some e ≠ past then
        ⟨StatusCode.permissionDenied,
          "Only the primary connection can issue requests."⟩
      else GrpcStatus.okStatus

/-- Method `SdnControllerManager::SendStreamMessageToPrimary`: read the role's
high-water mark through `operator[]`; absent means no primary and `false`.
Otherwise scan for the connection holding that id (the loop keeps the last
match), send to it, and return `true`; `false` when no connection holds it. -/
def sendStreamMessageToPrimary (s : SdnControllerManager)
    (roleName : Option String) (response : StreamMessageResponse) :
    Bool × SdnControllerManager × List (Nat × StreamMessageResponse) :=
  let r := s.electionIdPastByRole.getOrInsert roleName
  let s1 := { s with electionIdPastByRole := r.2 }
  let primary :=
    if r.1.isSome then
      s1.connections.foldl
        (fun acc p =>
          if (s1.store p).roleName = roleName ∧ (s1.store p).electionId = r.1
          then some p else acc)
        none
    else none
  (primary.isSome, s1, (primary.map fun p => (p, response)).toList)

end SdnControllerManager

/-! ## The service dispatchers -/

/-- Message `p4::v1::WriteRequest` as far as the dispatcher inspects it: `device_id`,
the `role` string (empty means unset), the optional `election_id`
(`high`/`low` words), and the number of updates. -/
structure WriteRequest where
  deviceId : Nat
  role : String
  electionId : Option (Nat × Nat)
  updatesSize : Nat
deriving Repr, DecidableEq

/-- Overload `SdnControllerManager::AllowRequest(const p4::v1::WriteRequest&)`: extract
the optional role (unset when the string is empty) and the optional election
id, then delegate. -/
def SdnControllerManager.allowRequestWrite (s : SdnControllerManager)
    (req : WriteRequest) : GrpcStatus :=
  let roleName : Option String := if req.role = "" then none else some req.role
  let electionId : Option Nat := req.electionId.map fun p => makeUint128 p.1 p.2
  s.allowRequest roleName electionId

/-- Anonymous-namespace `StatusOrToGrpcStatus` in `p4rt_server.cc`.  When the
`StatusOr` holds a vector of per-update statuses it returns `grpc::Status::OK`
without inspecting the vector; in the error branch it calls `value()` on a
valueless `StatusOr`, which aborts — modelled as `none`.  (The loop that
formats the per-update codes and messages builds a string it never uses, and
`returned_status` is returned default-constructed.) -/
def statusOrToGrpcStatus (results : Except AbslStatus (List AbslStatus)) :
    Option GrpcStatus :=
  match results with
  | Except.ok _ => some GrpcStatus.okStatus
  | Except.error _ => none

/-- Method `P4RtServer::Write`: authorisation via the controller manager, then OK on
an empty updates list, invalid-argument on a zero device id, else delegate to
the provider (a function from the request to its `StatusOr` result) and
convert via `statusOrToGrpcStatus`. -/
def p4rtServerWrite (s : SdnControllerManager) (req : WriteRequest)
    (provider : WriteRequest → Except AbslStatus (List AbslStatus)) :
    Option GrpcStatus :=
  let connectionStatus := s.allowRequestWrite req
  if connectionStatus.code ≠ StatusCode.ok then some connectionStatus
  else if req.updatesSize = 0 then some GrpcStatus.okStatus
  else if req.deviceId = 0 then
    some ⟨StatusCode.invalidArgument, "device_id can not be 0 or null."⟩
  else statusOrToGrpcStatus (provider req)

/-- Message `p4::v1::StreamMessageRequest`: the `update` oneof.  Payloads (packet-out
bytes, digest-ack and other contents) are opaque `Nat` tags; `unset` is the
not-set case of the oneof. -/
inductive StreamMessageRequest where
  | arbitration (u : MasterArbitrationUpdate)
  | packet (payload : Nat)
  | digestAck (payload : Nat)
  | other (payload : Nat)
  | unset
deriving Repr, DecidableEq

/-- Accessor `request.packet()` on a `StreamMessageRequest`: the packet payload when
the message is a packet-out, else the default (empty) `PacketOut`, tagged 0. -/
def StreamMessageRequest.packetField : StreamMessageRequest → Nat
  | StreamMessageRequest.packet p => p
  | _ => 0

/-- Result of processing one inbound stream message in
`P4RtServer::StreamChannel`: new manager state, the `node_id` local after the
iteration, `some st` when the handler returns `st` (terminating the stream),
the stream messages written (receiver id with message), and whether the
provider's `HandleStreamMessageRequest` was invoked. -/
structure StreamStepResult where
  state : SdnControllerManager
  nodeId : Nat
  terminated : Option GrpcStatus
  sends : List (Nat × StreamMessageResponse)
  providerInvoked : Bool

/-- One iteration of the read loop in `P4RtServer::StreamChannel` for
connection `c`.  `nodeId` is the value of the `node_id` local at entry (the
source declares it uninitialized inside the loop, so its initial value is
whatever the stack holds; it is a parameter here).  `provider` is
`HandleStreamMessageRequest`.  The connection accessor used for the
authorisation check is modelled as the connection's role (the accessor's
declaration lives in the missing header). -/
def p4rtServerStreamStep (s : SdnControllerManager) (c : Nat) (nodeId : Nat)
    (req : StreamMessageRequest)
    (provider : Nat → StreamMessageRequest → AbslStatus) : StreamStepResult :=
  match req with
  | StreamMessageRequest.arbitration u =>
    if u.deviceId = 0 then
      ⟨s, nodeId,
        some ⟨StatusCode.invalidArgument, "Invalid node (aka device) ID."⟩,
        [], false⟩
    else if nodeId ≠ 0 ∧ nodeId ≠ u.deviceId then
      ⟨s, nodeId,
        some ⟨StatusCode.invalidArgument,
          "Node (aka device) ID for this stream has changed."⟩,
        [], false⟩
    else
      let nodeId1 := if nodeId = 0 then u.deviceId else nodeId
      let r := s.handleArbitrationUpdate u c
      if r.1.code ≠ StatusCode.ok then
        let d := r.2.1.disconnect c
        ⟨d.1, nodeId1, some r.1, r.2.2 ++ d.2, false⟩
      else ⟨r.2.1, nodeId1, none, r.2.2, false⟩
  | StreamMessageRequest.unset => ⟨s, nodeId, none, [], false⟩
  | req =>
    let conn := s.store c
    let isPrimary :=
      (s.allowRequest conn.roleName conn.electionId).code = StatusCode.ok
    if isPrimary then
      let st := provider nodeId req
      if st.code ≠ StatusCode.ok then
        let r := s.sendStreamMessageToPrimary conn.roleName
          (StreamMessageResponse.error st.code
            (st.message ++ "Failed to send packet out.")
            (some req.packetField))
        ⟨r.2.1, nodeId, none, r.2.2, true⟩
      else ⟨s, nodeId, none, [], true⟩
    else
      ⟨s, nodeId, none,
        [(c, StreamMessageResponse.error StatusCode.permissionDenied
          "Cannot process request. Only the primary connection can send PacketOuts."
          (some req.packetField))],
        false⟩

/-- Result of processing one inbound stream message in
`P4RuntimeImpl::StreamChannel` (no `node_id` local there). -/
structure ImplStreamStepResult where
  state : SdnControllerManager
  terminated : Option GrpcStatus
  sends : List (Nat × StreamMessageResponse)
  providerInvoked : Bool

/-- One iteration of the read loop in `P4RuntimeImpl::StreamChannel` for
connection `c`.  `sendPacketOut` is the provider's `SendPacketOut`.  A
digest-ack, other, or unset message falls into the default branch, which
writes an in-band UNIMPLEMENTED error to the connection's own stream and
continues. -/
def p4runtimeImplStreamStep (s : SdnControllerManager) (c : Nat)
    (req : StreamMessageRequest) (sendPacketOut : Nat → AbslStatus) :
    ImplStreamStepResult :=
  match req with
  | StreamMessageRequest.arbitration u =>
    let r := s.handleArbitrationUpdate u c
    if r.1.code ≠ StatusCode.ok then
      let d := r.2.1.disconnect c
      ⟨d.1, some r.1, r.2.2 ++ d.2, false⟩
    else ⟨r.2.1, none, r.2.2, false⟩
  | StreamMessageRequest.packet p =>
    let conn := s.store c
    let isPrimary :=
      (s.allowRequest conn.roleName conn.electionId).code = StatusCode.ok
    if isPrimary then
      let st := sendPacketOut p
      if st.code ≠ StatusCode.ok then
        let r := s.sendStreamMessageToPrimary conn.roleName
          (StreamMessageResponse.error st.code
            (st.message ++ "Failed to send packet out.") (some p))
        ⟨r.2.1, none, r.2.2, true⟩
      else ⟨s, none, [], true⟩
    else
      ⟨s, none,
        [(c, StreamMessageResponse.error StatusCode.permissionDenied
          "Cannot process request. Only the primary connection can send PacketOuts."
          (some p))],
        false⟩
  | _ =>
    ⟨s, none,
      [(c, StreamMessageResponse.error StatusCode.unimplemented
        "Stream update type is not supported." none)],
      false⟩

/-! ## Spec-side predicates (from the specification's data-model wording) -/

/-- Spec section 3 ("Primary identity"): connection `conn` is a current
primary of role `r` iff its role is `r`, its election id is defined, and that
id equals the role's high-water mark (the value `operator[]` would yield). -/
def isCurrentPrimarySpec (s : SdnControllerManager) (conn : SdnConnection) :
    Prop :=
  conn.electionId.isSome = true ∧
    s.electionIdPastByRole.stored conn.roleName = conn.electionId

/-- Spec sections 3 and 4.2.2: a current primary exists for role `r` iff some
active connection is a current primary of `r`. -/
def primaryExistsSpec (s : SdnControllerManager) (r : Option String) : Prop :=
  ∃ p ∈ s.connections,
    (s.store p).roleName = r ∧ isCurrentPrimarySpec s (s.store p)

/-! ## Operation traces and invariant predicates -/

/-- One public manager operation: an arbitration update on a connection, a
disconnect, an authorisation check, or a packet-in delivery
(`SendStreamMessageToPrimary`, reached from the provider through
`P4RtServer::SendPacketIn`). -/
inductive ManagerOp where
  | arb (u : MasterArbitrationUpdate) (c : Nat)
  | disc (c : Nat)
  | allow (roleName : Option String) (electionId : Option Nat)
  | packetIn (roleName : Option String) (response : StreamMessageResponse)

/-- State effect of one manager operation.  `AllowRequest` only reads the map
(with `find`, not `operator[]`), so it leaves the state unchanged. -/
def applyOp (s : SdnControllerManager) : ManagerOp → SdnControllerManager
  | ManagerOp.arb u c => (s.handleArbitrationUpdate u c).2.1
  | ManagerOp.disc c => (s.disconnect c).1
  | ManagerOp.allow _ _ => s
  | ManagerOp.packetIn r resp => (s.sendStreamMessageToPrimary r resp).2.1

/-- State after a sequence of manager operations. -/
def applyOps (s : SdnControllerManager) (ops : List ManagerOp) :
    SdnControllerManager :=
  ops.foldl applyOp s

/-- Map evolution that never lowers or clears an accepted election id: every
key holding a defined id keeps a defined id at least as large. -/
def MapMono (m m' : RoleMap) : Prop :=
  ∀ r v, m.find? r = some (some v) → ∃ w, m'.find? r = some (some w) ∧ v ≤ w

/-- Relation `MapMono` on the managers' high-water-mark maps. -/
def StateMono (s s' : SdnControllerManager) : Prop :=
  MapMono s.electionIdPastByRole s'.electionIdPastByRole

/-- Claim C10's hypothesis on a role: no defined election id was ever accepted
for it — the high-water-mark map has no entry for the role, or only an entry
default-inserted to absent. -/
def neverAcceptedDefined (s : SdnControllerManager) (r : Option String) :
    Prop :=
  s.electionIdPastByRole.find? r = none ∨
    s.electionIdPastByRole.find? r = some none

/-- A connection heap in which every connection is fresh (used by the concrete
scenarios below; a real heap holds one object per opened stream). -/
def freshHeap : Nat → SdnConnection := fun _ => SdnConnection.fresh

/-- A provider whose `HandleStreamMessageRequest` always succeeds. -/
def okProvider : Nat → StreamMessageRequest → AbslStatus :=
  fun _ _ => AbslStatus.okStatus

/-- A freshly constructed manager over a fresh heap. -/
def mgr0 : SdnControllerManager := SdnControllerManager.init freshHeap

/-- Connection 0 arbitrates on device 1 with election id 10 and becomes
primary of the default role (spec scenario S1). -/
def mgrPrimary10 : SdnControllerManager :=
  (mgr0.handleArbitrationUpdate ⟨1, none, some (0, 10)⟩ 0).2.1

/-- Connection 0 arbitrates on device 1 with no election id: a lone backup
connection of the default role. -/
def mgrOneBackup : SdnControllerManager :=
  (mgr0.handleArbitrationUpdate ⟨1, none, none⟩ 0).2.1

/-- From `mgrPrimary10`, the same connection 0 re-arbitrates with the changed
election id 11. -/
def mgrReArb11 : SdnControllerManager :=
  (mgrPrimary10.handleArbitrationUpdate ⟨1, none, some (0, 11)⟩ 0).2.1

/-- From `mgrReArb11`, connection 0 disconnects. -/
def mgrReArb11Disc : SdnControllerManager := (mgrReArb11.disconnect 0).1

/-- A trace of manager operations used to exercise monotonicity: the primary
disconnects, a controller arbitrates with the lower election id 4, an
authorisation check and a packet-in delivery follow. -/
def traceLowerId : List ManagerOp :=
  [ManagerOp.disc 0,
   ManagerOp.arb ⟨1, none, some (0, 4)⟩ 1,
   ManagerOp.allow none (some 4),
   ManagerOp.packetIn none (StreamMessageResponse.payload 5)]

/-- The state of `HandleArbitrationUpdate` after the device-id assignment and
the connection mutation (`SetRoleName` / `SetElectionId` / `Initialize` /
`push_back`), on which the primary-state recomputation runs. -/
def arbitrationIntermediate (s : SdnControllerManager)
    (u : MasterArbitrationUpdate) (c : Nat) : SdnControllerManager :=
  SdnControllerManager.applyConnectionUpdate { s with deviceId := u.deviceId }
    c u.parsedRoleName u.parsedElectionId

/-! ## Association-list lemmas for the high-water-mark map -/

theorem RoleMap.find?_append_left {m : RoleMap} {r : Option String}
    {x : Option Nat} (l : RoleMap) (h : m.find? r = some x) :
    (m ++ l).find? r = some x := by
  induction m with
  | nil => simp [RoleMap.find?] at h
  | cons kv rest ih =>
    obtain ⟨k0, v0⟩ := kv
    rw [List.cons_append]
    by_cases hk : k0 = r
    · simp only [RoleMap.find?, if_pos hk] at h ⊢
      exact h
    · simp only [RoleMap.find?, if_neg hk] at h ⊢
      exact ih h

theorem RoleMap.find?_append_right {m : RoleMap} {r : Option String}
    (l : RoleMap) (h : m.find? r = none) :
    (m ++ l).find? r = l.find? r := by
  induction m with
  | nil => simp
  | cons kv rest ih =>
    obtain ⟨k0, v0⟩ := kv
    rw [List.cons_append]
    by_cases hk : k0 = r
    · simp only [RoleMap.find?, if_pos hk] at h
      exact absurd h (by simp)
    · simp only [RoleMap.find?, if_neg hk] at h ⊢
      exact ih h

theorem RoleMap.getOrInsert_fst (m : RoleMap) (k : Option String) :
    (m.getOrInsert k).1 = m.stored k := by
  unfold RoleMap.getOrInsert RoleMap.stored
  cases h : m.find? k <;> simp [h]

theorem RoleMap.getOrInsert_find? (m : RoleMap) (k r : Option String) :
    ((m.getOrInsert k).2).find? r =
      if m.find? k = none ∧ k = r then some none else m.find? r := by
  unfold RoleMap.getOrInsert
  cases h : m.find? k with
  | some v => simp [h]
  | none =>
    simp only [h, true_and]
    by_cases hr : k = r
    · subst hr
      rw [RoleMap.find?_append_right _ h]
      simp [RoleMap.find?]
    · rw [if_neg hr]
      cases hmr : m.find? r with
      | some x => exact RoleMap.find?_append_left _ hmr
      | none =>
        rw [RoleMap.find?_append_right _ hmr]
        simp [RoleMap.find?, hr]

theorem RoleMap.set_find?_ne {k r : Option String} (m : RoleMap)
    (v : Option Nat) (h : k ≠ r) : (m.set k v).find? r = m.find? r := by
  induction m with
  | nil => simp [RoleMap.set]
  | cons kv rest ih =>
    obtain ⟨k0, v0⟩ := kv
    by_cases hk : k0 = k <;> by_cases hr : k0 = r <;>
      simp_all [RoleMap.set, RoleMap.find?]

theorem RoleMap.set_find?_eq {k : Option String} {m : RoleMap}
    {x : Option Nat} (v : Option Nat) (h : m.find? k = some x) :
    (m.set k v).find? k = some v := by
  induction m with
  | nil => simp [RoleMap.find?] at h
  | cons kv rest ih =>
    obtain ⟨k0, v0⟩ := kv
    by_cases hk : k0 = k
    · simp [RoleMap.set, hk, RoleMap.find?]
    · simp only [RoleMap.find?, if_neg hk] at h
      simp only [RoleMap.set, if_neg hk]
      simp only [RoleMap.find?, if_neg hk]
      exact ih h

/-! ## Monotonicity machinery (claim C8) -/

theorem MapMono.rfl (m : RoleMap) : MapMono m m :=
  fun _ v h => ⟨v, h, Nat.le_refl v⟩

theorem MapMono.trans {a b c : RoleMap} (h1 : MapMono a b) (h2 : MapMono b c) :
    MapMono a c := by
  intro r v h
  obtain ⟨w, hw, hvw⟩ := h1 r v h
  obtain ⟨x, hx, hwx⟩ := h2 r w hw
  exact ⟨x, hx, Nat.le_trans hvw hwx⟩

theorem MapMono.getOrInsert (m : RoleMap) (k : Option String) :
    MapMono m (m.getOrInsert k).2 := by
  intro r v h
  rw [RoleMap.getOrInsert_find?]
  by_cases hc : m.find? k = none ∧ k = r
  · rw [hc.2] at hc
    rw [hc.2, h] at hc
    simp at hc
  · rw [if_neg hc, h]
    exact ⟨v, Eq.refl _, Nat.le_refl v⟩

namespace SdnControllerManager

/-! ### State-component lemmas for the manager operations -/

theorem primaryConnectionExists_state (s : SdnControllerManager)
    (roleName : Option String) :
    (s.primaryConnectionExists roleName).2 =
      { s with electionIdPastByRole :=
          (s.electionIdPastByRole.getOrInsert roleName).2 } := Eq.refl _

theorem sendArbitrationResponse_state (s : SdnControllerManager) (c : Nat) :
    (s.sendArbitrationResponse c).1 =
      { s with electionIdPastByRole :=
          (((s.electionIdPastByRole.getOrInsert
              (s.store c).roleName).2).getOrInsert (s.store c).roleName).2 } :=
  Eq.refl _

theorem sendArbitrationResponse_connections (s : SdnControllerManager)
    (c : Nat) : (s.sendArbitrationResponse c).1.connections = s.connections :=
  Eq.refl _

theorem sendArbitrationResponse_store (s : SdnControllerManager) (c : Nat) :
    (s.sendArbitrationResponse c).1.store = s.store := Eq.refl _

theorem sendArbitrationResponse_deviceId (s : SdnControllerManager) (c : Nat) :
    (s.sendArbitrationResponse c).1.deviceId = s.deviceId := Eq.refl _

theorem informConnectionsGo_connections (s : SdnControllerManager)
    (roleName : Option String) (l : List Nat) :
    (informConnectionsGo s roleName l).1.connections = s.connections := by
  induction l generalizing s with
  | nil => rfl
  | cons c rest ih =>
    unfold informConnectionsGo
    by_cases h : (s.store c).roleName = roleName
    · simp only [if_pos h]
      rw [ih, sendArbitrationResponse_connections]
    · simp only [if_neg h]
      exact ih s

theorem informConnectionsGo_store (s : SdnControllerManager)
    (roleName : Option String) (l : List Nat) :
    (informConnectionsGo s roleName l).1.store = s.store := by
  induction l generalizing s with
  | nil => rfl
  | cons c rest ih =>
    unfold informConnectionsGo
    by_cases h : (s.store c).roleName = roleName
    · simp only [if_pos h]
      rw [ih, sendArbitrationResponse_store]
    · simp only [if_neg h]
      exact ih s

theorem informConnectionsGo_deviceId (s : SdnControllerManager)
    (roleName : Option String) (l : List Nat) :
    (informConnectionsGo s roleName l).1.deviceId = s.deviceId := by
  induction l generalizing s with
  | nil => rfl
  | cons c rest ih =>
    unfold informConnectionsGo
    by_cases h : (s.store c).roleName = roleName
    · simp only [if_pos h]
      rw [ih, sendArbitrationResponse_deviceId]
    · simp only [if_neg h]
      exact ih s

theorem updateToPrimaryConnectionState_connections
    (s : SdnControllerManager) (roleName : Option String)
    (electionId : Option Nat) :
    (s.updateToPrimaryConnectionState roleName electionId).2.connections =
      s.connections := by
  unfold updateToPrimaryConnectionState
  dsimp only
  split
  · split <;> rfl
  · rfl

theorem updateToPrimaryConnectionState_store
    (s : SdnControllerManager) (roleName : Option String)
    (electionId : Option Nat) :
    (s.updateToPrimaryConnectionState roleName electionId).2.store =
      s.store := by
  unfold updateToPrimaryConnectionState
  dsimp only
  split
  · split <;> rfl
  · rfl

theorem updateToPrimaryConnectionState_deviceId
    (s : SdnControllerManager) (roleName : Option String)
    (electionId : Option Nat) :
    (s.updateToPrimaryConnectionState roleName electionId).2.deviceId =
      s.deviceId := by
  unfold updateToPrimaryConnectionState
  dsimp only
  split
  · split <;> rfl
  · rfl

theorem handleArbitrationUpdate_deviceId (s : SdnControllerManager)
    (u : MasterArbitrationUpdate) (c : Nat) :
    (s.handleArbitrationUpdate u c).2.1.deviceId = u.deviceId := by
  unfold handleArbitrationUpdate
  dsimp only
  split
  · rfl
  · split
    · rw [sendArbitrationResponse_deviceId]
    · split
      · rfl
      · split
        · rw [informConnectionsAboutPrimaryChange, informConnectionsGo_deviceId,
            updateToPrimaryConnectionState_deviceId]
          rfl
        · rw [sendArbitrationResponse_deviceId,
            updateToPrimaryConnectionState_deviceId]
          rfl

end SdnControllerManager

theorem MapMono.setAfterGet {m : RoleMap} {k : Option String}
    {maxId : Option Nat} (hg : optLt (m.stored k) maxId = true) :
    MapMono m (((m.getOrInsert k).2).set k maxId) := by
  intro r v h
  by_cases hk : k = r
  · subst hk
    have hst : m.stored k = some v := by simp [RoleMap.stored, h]
    rw [hst] at hg
    cases maxId with
    | none => simp [optLt] at hg
    | some w =>
      have hv : v < w := by simpa [optLt] using hg
      refine ⟨w, ?_, Nat.le_of_lt hv⟩
      have hgi : ((m.getOrInsert k).2).find? k = some (some v) := by
        rw [RoleMap.getOrInsert_find?]
        simp [h]
      exact RoleMap.set_find?_eq _ hgi
  · have hgi : ((m.getOrInsert k).2).find? r = m.find? r := by
      rw [RoleMap.getOrInsert_find?]
      simp [hk]
    rw [RoleMap.set_find?_ne _ _ hk, hgi, h]
    exact ⟨v, Eq.refl _, Nat.le_refl v⟩

namespace SdnControllerManager

theorem mono_getOrInsert {m0 m : RoleMap} (k : Option String)
    (h : MapMono m0 m) : MapMono m0 (m.getOrInsert k).2 :=
  MapMono.trans h (MapMono.getOrInsert m k)

theorem mono_sendArbitrationResponse {m0 : RoleMap}
    (s : SdnControllerManager) (c : Nat)
    (h : MapMono m0 s.electionIdPastByRole) :
    MapMono m0 (s.sendArbitrationResponse c).1.electionIdPastByRole := by
  rw [sendArbitrationResponse_state]
  exact mono_getOrInsert _ (mono_getOrInsert _ h)

theorem mono_informConnectionsGo (roleName : Option String) (l : List Nat) :
    ∀ (s : SdnControllerManager) (m0 : RoleMap),
      MapMono m0 s.electionIdPastByRole →
      MapMono m0 (informConnectionsGo s roleName l).1.electionIdPastByRole := by
  induction l with
  | nil => intro s m0 h; exact h
  | cons c rest ih =>
    intro s m0 h
    unfold informConnectionsGo
    dsimp only
    by_cases hc : (s.store c).roleName = roleName
    · simp only [if_pos hc]
      exact ih _ _ (mono_sendArbitrationResponse s c h)
    · simp only [if_neg hc]
      exact ih s m0 h

theorem mono_informConnectionsAboutPrimaryChange {m0 : RoleMap}
    (s : SdnControllerManager) (roleName : Option String)
    (h : MapMono m0 s.electionIdPastByRole) :
    MapMono m0
      (s.informConnectionsAboutPrimaryChange roleName).1.electionIdPastByRole :=
  mono_informConnectionsGo roleName s.connections s m0 h

theorem mono_updateToPrimaryConnectionState {m0 : RoleMap}
    (s : SdnControllerManager) (roleName : Option String)
    (electionId : Option Nat) (h : MapMono m0 s.electionIdPastByRole) :
    MapMono m0
      (s.updateToPrimaryConnectionState roleName
        electionId).2.electionIdPastByRole := by
  unfold updateToPrimaryConnectionState
  dsimp only
  split
  · split
    · rename_i hguard
      refine MapMono.trans h (MapMono.setAfterGet ?_)
      rw [← RoleMap.getOrInsert_fst]
      exact hguard.2
    · exact mono_getOrInsert _ h
  · exact mono_getOrInsert _ h

theorem mono_disconnect {m0 : RoleMap} (s : SdnControllerManager) (c : Nat)
    (h : MapMono m0 s.electionIdPastByRole) :
    MapMono m0 (s.disconnect c).1.electionIdPastByRole := by
  unfold disconnect
  dsimp only
  split
  · split
    · split
      · exact mono_informConnectionsAboutPrimaryChange _ _
          (mono_getOrInsert _ h)
      · exact mono_getOrInsert _ h
    · exact h
  · exact h

theorem mono_handleArbitrationUpdate {m0 : RoleMap}
    (s : SdnControllerManager) (u : MasterArbitrationUpdate) (c : Nat)
    (h : MapMono m0 s.electionIdPastByRole) :
    MapMono m0 (s.handleArbitrationUpdate u c).2.1.electionIdPastByRole := by
  unfold handleArbitrationUpdate
  dsimp only
  split
  · exact h
  · split
    · exact mono_sendArbitrationResponse _ c h
    · split
      · exact h
      · split
        · exact mono_informConnectionsAboutPrimaryChange _ _
            (mono_updateToPrimaryConnectionState _ _ _ h)
        · exact mono_sendArbitrationResponse _ c
            (mono_updateToPrimaryConnectionState _ _ _ h)

theorem mono_sendStreamMessageToPrimary {m0 : RoleMap}
    (s : SdnControllerManager) (roleName : Option String)
    (response : StreamMessageResponse)
    (h : MapMono m0 s.electionIdPastByRole) :
    MapMono m0
      (s.sendStreamMessageToPrimary roleName
        response).2.1.electionIdPastByRole :=
  mono_getOrInsert _ h

end SdnControllerManager

theorem mono_applyOp {m0 : RoleMap} (s : SdnControllerManager)
    (op : ManagerOp) (h : MapMono m0 s.electionIdPastByRole) :
    MapMono m0 (applyOp s op).electionIdPastByRole := by
  cases op with
  | arb u c => exact SdnControllerManager.mono_handleArbitrationUpdate s u c h
  | disc c => exact SdnControllerManager.mono_disconnect s c h
  | allow r e => exact h
  | packetIn r resp =>
    exact SdnControllerManager.mono_sendStreamMessageToPrimary s r resp h

theorem mono_applyOps (ops : List ManagerOp) :
    ∀ (s : SdnControllerManager) (m0 : RoleMap),
      MapMono m0 s.electionIdPastByRole →
      MapMono m0 (applyOps s ops).electionIdPastByRole := by
  induction ops with
  | nil => intro s m0 h; exact h
  | cons op rest ih =>
    intro s m0 h
    exact ih (applyOp s op) m0 (mono_applyOp s op h)

/-! ## Claim C5: request authorisation -/

/-- C5: `AllowRequest(role_id, election_id)` returns permission-denied iff the
election id is absent, or `election_id_past_by_role_` has no accepted entry
for the role, or the id differs from the stored high-water mark; otherwise it
returns OK — i.e. a request is approved exactly when the caller's election id
equals the current high-water mark for its role. -/
theorem c5_allow_request_iff (s : SdnControllerManager)
    (roleName : Option String) (electionId : Option Nat) :
    ((s.allowRequest roleName electionId).code = StatusCode.permissionDenied ↔
      (electionId = none ∨ s.electionIdPastByRole.find? roleName = none ∨
        s.electionIdPastByRole.find? roleName ≠ some electionId)) ∧
    ((s.allowRequest roleName electionId).code = StatusCode.ok ↔
      (electionId ≠ none ∧
        s.electionIdPastByRole.find? roleName = some electionId)) := by
  unfold SdnControllerManager.allowRequest
  cases electionId with
  | none => simp
  | some e =>
    cases hf : s.electionIdPastByRole.find? roleName with
    | none => simp [hf]
    | some past =>
      by_cases he : some e = past
      · subst he
        simp [hf, GrpcStatus.okStatus]
      · have he2 : ¬(past = some e) := fun hc => he hc.symm
        simp [hf, he, he2]

/-! ## Claim C2: device-id validation in arbitration -/

theorem validateConnection_code (roleName : Option String)
    (electionId : Option Nat) (activeConnections : List Nat)
    (store : Nat → SdnConnection) :
    (validateConnection roleName electionId activeConnections store).code =
        StatusCode.ok ∨
      (validateConnection roleName electionId activeConnections store).code =
        StatusCode.invalidArgument := by
  unfold validateConnection
  cases electionId with
  | none => exact Or.inl (Eq.refl _)
  | some e =>
    dsimp only
    split
    · exact Or.inr (Eq.refl _)
    · exact Or.inl (Eq.refl _)

theorem handleArbitrationUpdate_no_failedPrecondition
    (s : SdnControllerManager) (u : MasterArbitrationUpdate) (c : Nat) :
    (s.handleArbitrationUpdate u c).1.code ≠ StatusCode.failedPrecondition := by
  unfold SdnControllerManager.handleArbitrationUpdate
  dsimp only
  split
  · rename_i h
    exact absurd rfl h
  · split
    · intro hcontra
      exact absurd hcontra (by simp [GrpcStatus.okStatus])
    · split
      · rcases validateConnection_code u.parsedRoleName u.parsedElectionId
          s.connections s.store with hv | hv <;> simp [hv]
      · split
        · intro hcontra
          exact absurd hcontra (by simp [GrpcStatus.okStatus])
        · intro hcontra
          exact absurd hcontra (by simp [GrpcStatus.okStatus])

/-- C2 (code bug evidence): `HandleArbitrationUpdate` assigns
`device_id_ = update.device_id()` before comparing the two, so the manager
always adopts the message's device id and never returns failed-precondition;
concretely, a manager whose device id is already 1 accepts an update with
device id 7, adopting it with status OK.  At the stream layer, a zero device
id is rejected with INVALID_ARGUMENT — not failed-precondition. -/
theorem c2_device_id_check_dead :
    (∀ (s : SdnControllerManager) (u : MasterArbitrationUpdate) (c : Nat),
      (s.handleArbitrationUpdate u c).2.1.deviceId = u.deviceId ∧
      (s.handleArbitrationUpdate u c).1.code ≠ StatusCode.failedPrecondition) ∧
    ((mgrPrimary10.handleArbitrationUpdate ⟨7, none, some (0, 7)⟩ 1).1.code =
        StatusCode.ok ∧
      (mgrPrimary10.handleArbitrationUpdate
          ⟨7, none, some (0, 7)⟩ 1).2.1.deviceId = 7) ∧
    (p4rtServerStreamStep mgrPrimary10 1 1
        (StreamMessageRequest.arbitration ⟨0, none, some (0, 7)⟩)
        okProvider).terminated =
      some ⟨StatusCode.invalidArgument, "Invalid node (aka device) ID."⟩ := by
  refine ⟨fun s u c => ⟨SdnControllerManager.handleArbitrationUpdate_deviceId s u c,
    handleArbitrationUpdate_no_failedPrecondition s u c⟩, ⟨?_, ?_⟩, ?_⟩
  · decide
  · decide
  · decide

/-! ## Claim C9: unsupported stream-request variants -/

/-- C9 (counterexample): in `P4RtServer::StreamChannel` a stream message whose
variant is not set falls into the silent `default: break` — no in-band
UNIMPLEMENTED error is written (the sends list is empty), though the stream
does continue. -/
theorem c9_counterexample :
    (p4rtServerStreamStep mgrPrimary10 1 1 StreamMessageRequest.unset
        okProvider).sends = [] ∧
    (p4rtServerStreamStep mgrPrimary10 1 1 StreamMessageRequest.unset
        okProvider).terminated = none := by
  exact ⟨Eq.refl _, Eq.refl _⟩

/-- C9 (amended): unhandled stream-request variants never terminate the
stream; `P4RuntimeImpl::StreamChannel` answers digest-ack, other, and unset
variants with an in-band UNIMPLEMENTED `StreamMessageResponse.error` on the
connection's own stream, while `P4RtServer::StreamChannel` silently ignores an
unset variant (no message is written). -/
theorem c9_amended (s : SdnControllerManager) (c nodeId : Nat)
    (provider : Nat → StreamMessageRequest → AbslStatus)
    (sendPacketOut : Nat → AbslStatus) (pl : Nat) :
    ((p4rtServerStreamStep s c nodeId StreamMessageRequest.unset
        provider).sends = [] ∧
      (p4rtServerStreamStep s c nodeId StreamMessageRequest.unset
        provider).terminated = none) ∧
    ((p4runtimeImplStreamStep s c (StreamMessageRequest.digestAck pl)
        sendPacketOut).sends =
      [(c, StreamMessageResponse.error StatusCode.unimplemented
        "Stream update type is not supported." none)] ∧
      (p4runtimeImplStreamStep s c (StreamMessageRequest.digestAck pl)
        sendPacketOut).terminated = none) ∧
    ((p4runtimeImplStreamStep s c (StreamMessageRequest.other pl)
        sendPacketOut).sends =
      [(c, StreamMessageResponse.error StatusCode.unimplemented
        "Stream update type is not supported." none)] ∧
      (p4runtimeImplStreamStep s c (StreamMessageRequest.other pl)
        sendPacketOut).terminated = none) ∧
    ((p4runtimeImplStreamStep s c StreamMessageRequest.unset
        sendPacketOut).sends =
      [(c, StreamMessageResponse.error StatusCode.unimplemented
        "Stream update type is not supported." none)] ∧
      (p4runtimeImplStreamStep s c StreamMessageRequest.unset
        sendPacketOut).terminated = none) :=
  ⟨⟨Eq.refl _, Eq.refl _⟩, ⟨Eq.refl _, Eq.refl _⟩, ⟨Eq.refl _, Eq.refl _⟩,
    ⟨Eq.refl _, Eq.refl _⟩⟩

/-! ## Claim C1: Write aggregates per-update statuses -/

/-- C1 (code bug evidence): when the provider's `WriteForwardingEntries`
returns a vector of per-update statuses, `P4RtServer::Write` returns OK no
matter what the vector contains — here an authorised, non-empty Write whose
single per-update status is an INTERNAL error still yields OK, not an
aggregate error. -/
theorem c1_write_ignores_statuses :
    p4rtServerWrite mgrPrimary10 ⟨1, "", some (0, 10), 1⟩
        (fun _ => Except.ok [⟨StatusCode.internal, "update failed"⟩]) =
      some GrpcStatus.okStatus ∧
    (⟨StatusCode.internal, "update failed"⟩ : AbslStatus).code ≠
      StatusCode.ok := by
  exact ⟨by decide, by decide⟩

/-! ## Claim C7: packet-out from a non-primary connection -/

/-- C7: when a connection whose role/election id fail the authorisation check
sends a packet-out (or digest-ack or other) stream message, `P4RtServer`
writes exactly one message — a `StreamMessageResponse.error` carrying
PERMISSION_DENIED with the offending `PacketOut` echoed — to that connection's
own stream, does not invoke the provider, leaves the manager state unchanged,
and keeps reading the stream. -/
theorem c7_nonprimary_packet_out (s : SdnControllerManager) (c nodeId : Nat)
    (req : StreamMessageRequest)
    (provider : Nat → StreamMessageRequest → AbslStatus)
    (hkind : ∃ pl, req = StreamMessageRequest.packet pl ∨
      req = StreamMessageRequest.digestAck pl ∨
      req = StreamMessageRequest.other pl)
    (hdenied : (s.allowRequest (s.store c).roleName
      (s.store c).electionId).code ≠ StatusCode.ok) :
    (p4rtServerStreamStep s c nodeId req provider).sends =
      [(c, StreamMessageResponse.error StatusCode.permissionDenied
        "Cannot process request. Only the primary connection can send PacketOuts."
        (some req.packetField))] ∧
    (p4rtServerStreamStep s c nodeId req provider).providerInvoked = false ∧
    (p4rtServerStreamStep s c nodeId req provider).state = s ∧
    (p4rtServerStreamStep s c nodeId req provider).terminated = none := by
  obtain ⟨pl, hp | hp | hp⟩ := hkind <;> subst hp <;>
    · unfold p4rtServerStreamStep
      dsimp only
      rw [if_neg hdenied]
      exact ⟨Eq.refl _, Eq.refl _, Eq.refl _, Eq.refl _⟩

/-- C7 witness: a fresh (never-arbitrated) connection 0 sends packet-out 42;
it gets the PERMISSION_DENIED error with packet 42 echoed, the provider is not
invoked, and the stream continues. -/
theorem c7_nonprimary_packet_out_witness :
    (p4rtServerStreamStep mgr0 0 0 (StreamMessageRequest.packet 42)
        okProvider).sends =
      [(0, StreamMessageResponse.error StatusCode.permissionDenied
        "Cannot process request. Only the primary connection can send PacketOuts."
        (some 42))] ∧
    (p4rtServerStreamStep mgr0 0 0 (StreamMessageRequest.packet 42)
        okProvider).providerInvoked = false ∧
    (p4rtServerStreamStep mgr0 0 0 (StreamMessageRequest.packet 42)
        okProvider).state = mgr0 ∧
    (p4rtServerStreamStep mgr0 0 0 (StreamMessageRequest.packet 42)
        okProvider).terminated = none :=
  c7_nonprimary_packet_out mgr0 0 0 (StreamMessageRequest.packet 42)
    okProvider ⟨42, Or.inl (Eq.refl _)⟩ (by decide)

/-! ## Claim C3: `connections` as a set -/

/-- C3 (code bug evidence): starting from a fresh manager, connection 0
arbitrates with election id 10 and is registered once; when the same,
already-initialized connection re-arbitrates with election id 11,
`HandleArbitrationUpdate` pushes it onto `connections_` again unconditionally,
so the initialized connection appears twice (and the two vector entries share
the defined election id 11); a subsequent `Disconnect` erases only the first
copy, leaving the disconnected connection still registered. -/
theorem c3_connections_not_a_set :
    mgrPrimary10.connections = [0] ∧
    (mgrReArb11.store 0).initialized = true ∧
    mgrReArb11.connections = [0, 0] ∧
    mgrReArb11.connections.count 0 = 2 ∧
    (mgrReArb11.store 0).electionId = some 11 ∧
    mgrReArb11Disc.connections = [0] ∧
    (0 : Nat) ∈ mgrReArb11Disc.connections := by
  refine ⟨by decide, by decide, by decide, by decide, by decide, by decide,
    by decide⟩

/-! ## Claim C4: response routing when nothing changed -/

/-- C4 (counterexample): connection 0 is an initialized backup of the default
role (no election id, high-water mark entry absent).  Connection 1 then sends
an arbitration update with no election id: the role's maximum election id and
high-water mark both stay absent and the role never had a primary — the
claim's "nothing changed" case — yet the code treats the absent-equals-absent
comparison as an old primary reconnecting and broadcasts: connection 0 also
receives an arbitration response, not just the updating connection 1. -/
theorem c4_counterexample_broadcast_to_backups :
    ((mgrOneBackup.handleArbitrationUpdate ⟨1, none, none⟩ 1).2.2).map
        Prod.fst = [0, 1] ∧
    ((mgrOneBackup.handleArbitrationUpdate ⟨1, none, none⟩ 1).2.2).map
        Prod.fst ≠ [1] := by
  exact ⟨by decide, by decide⟩

theorem updateToPrimaryConnectionState_false_of_same
    (s1 : SdnControllerManager) (roleName : Option String)
    (electionId : Option Nat)
    (hsame : s1.maxElectionIdForRole roleName =
      s1.electionIdPastByRole.stored roleName)
    (hne : electionId ≠ s1.maxElectionIdForRole roleName) :
    (s1.updateToPrimaryConnectionState roleName electionId).1 = false := by
  unfold SdnControllerManager.updateToPrimaryConnectionState
  dsimp only
  rw [if_neg]
  intro hor
  rcases hor with hmax | hrec
  · rw [RoleMap.getOrInsert_fst] at hmax
    exact hmax hsame
  · exact hne hrec

/-- C4 (amended): after an arbitration update that passes the no-op shortcut
and the uniqueness validation, if — on the post-update state — the role's
maximum election id equals the stored high-water mark **and** the update's
election id differs from that maximum, the manager sends an arbitration
response to the updating connection only.  (When the update's id equals the
maximum — in particular when both are absent because the role has only backup
connections and never had a primary — the code instead treats it as an old
primary reconnecting and broadcasts to every connection of the role, as the
counterexample shows.) -/
theorem c4_amended_reply_to_caller_only (s : SdnControllerManager)
    (u : MasterArbitrationUpdate) (c : Nat)
    (hnoop : ¬((s.store c).initialized = true ∧
      (s.store c).roleName = u.parsedRoleName ∧
      (s.store c).electionId = u.parsedElectionId))
    (hvalid : (validateConnection u.parsedRoleName u.parsedElectionId
      s.connections s.store).code = StatusCode.ok)
    (hsame : (arbitrationIntermediate s u c).maxElectionIdForRole
        u.parsedRoleName =
      (arbitrationIntermediate s u c).electionIdPastByRole.stored
        u.parsedRoleName)
    (hne : u.parsedElectionId ≠
      (arbitrationIntermediate s u c).maxElectionIdForRole u.parsedRoleName) :
    ((s.handleArbitrationUpdate u c).2.2).map Prod.fst = [c] := by
  have hupd := updateToPrimaryConnectionState_false_of_same
    (arbitrationIntermediate s u c) u.parsedRoleName u.parsedElectionId
    hsame hne
  unfold arbitrationIntermediate at hupd
  unfold SdnControllerManager.handleArbitrationUpdate
  dsimp only
  rw [if_neg (by simp)]
  rw [if_neg hnoop]
  rw [if_neg (not_not_intro hvalid)]
  rw [hupd]
  simp

/-- C4 witness: connection 0 is primary with election id 10; connection 1
arbitrates as a backup with election id 5 (maximum 10 equals the high-water
mark 10, and 5 differs from 10), so only connection 1 receives a response. -/
theorem c4_amended_reply_to_caller_only_witness :
    ((mgrPrimary10.handleArbitrationUpdate ⟨1, none, some (0, 5)⟩ 1).2.2).map
      Prod.fst = [1] :=
  c4_amended_reply_to_caller_only mgrPrimary10 ⟨1, none, some (0, 5)⟩ 1
    (by decide) (by decide) (by decide) (by decide)

/-! ## Claim C6: arbitration response contents -/

theorem RoleMap.stored_getOrInsert (m : RoleMap) (k k' : Option String) :
    ((m.getOrInsert k).2).stored k' = m.stored k' := by
  unfold RoleMap.stored
  rw [RoleMap.getOrInsert_find?]
  split
  · rename_i hc
    rw [← hc.2, hc.1]
    rfl
  · rfl

theorem primaryConnectionExists_iff_spec (s : SdnControllerManager)
    (r : Option String) :
    ((s.primaryConnectionExists r).1 = true) ↔ primaryExistsSpec s r := by
  unfold SdnControllerManager.primaryConnectionExists primaryExistsSpec
    isCurrentPrimarySpec
  dsimp only
  rw [RoleMap.getOrInsert_fst]
  rw [Bool.and_eq_true, List.any_eq_true]
  constructor
  · rintro ⟨⟨p, hmem, hpred⟩, hsome⟩
    rw [Bool.and_eq_true, decide_eq_true_eq, decide_eq_true_eq] at hpred
    refine ⟨p, hmem, hpred.1, ?_, ?_⟩
    · rw [hpred.2]
      exact hsome
    · rw [hpred.1, hpred.2]
  · rintro ⟨p, hmem, hrole, hsome2, hstored⟩
    rw [hrole] at hstored
    constructor
    · refine ⟨p, hmem, ?_⟩
      rw [Bool.and_eq_true, decide_eq_true_eq, decide_eq_true_eq]
      exact ⟨hrole, hstored.symm⟩
    · rw [hstored]
      exact hsome2

theorem primaryExistsSpec_getOrInsert (s : SdnControllerManager)
    (r k : Option String) :
    primaryExistsSpec
        { s with electionIdPastByRole :=
            (s.electionIdPastByRole.getOrInsert k).2 } r ↔
      primaryExistsSpec s r := by
  unfold primaryExistsSpec isCurrentPrimarySpec
  dsimp only
  simp only [RoleMap.stored_getOrInsert]

theorem primaryExistsSpec_stored_isSome {s : SdnControllerManager}
    {r : Option String} (h : primaryExistsSpec s r) :
    (s.electionIdPastByRole.stored r).isSome = true := by
  obtain ⟨p, _, hrole, hsome, hstored⟩ := h
  rw [hrole] at hstored
  rw [hstored]
  exact hsome

/-- C6: every arbitration response built by `SendArbitrationResponse` for a
connection `c` carries the manager's device id, `c`'s role, and the
high-water-mark election id for `c`'s role (not `c`'s own id); its status is
OK iff a current primary exists for the role and `c` is a current primary,
ALREADY_EXISTS iff a current primary exists and `c` is not one, and NOT_FOUND
iff no current primary exists (even when a high-water mark is recorded). -/
theorem c6_arbitration_response (s : SdnControllerManager) (c : Nat) :
    (s.sendArbitrationResponse c).2.deviceId = s.deviceId ∧
    (s.sendArbitrationResponse c).2.role = (s.store c).roleName ∧
    (s.sendArbitrationResponse c).2.electionId =
      s.electionIdPastByRole.stored (s.store c).roleName ∧
    ((s.sendArbitrationResponse c).2.statusCode = StatusCode.ok ↔
      primaryExistsSpec s (s.store c).roleName ∧
        isCurrentPrimarySpec s (s.store c)) ∧
    ((s.sendArbitrationResponse c).2.statusCode = StatusCode.alreadyExists ↔
      primaryExistsSpec s (s.store c).roleName ∧
        ¬ isCurrentPrimarySpec s (s.store c)) ∧
    ((s.sendArbitrationResponse c).2.statusCode = StatusCode.notFound ↔
      ¬ primaryExistsSpec s (s.store c).roleName) := by
  have hex := primaryConnectionExists_iff_spec
    { s with electionIdPastByRole :=
        (s.electionIdPastByRole.getOrInsert (s.store c).roleName).2 }
    (s.store c).roleName
  rw [primaryExistsSpec_getOrInsert] at hex
  unfold SdnControllerManager.sendArbitrationResponse
  dsimp only
  by_cases hexb : (({ s with electionIdPastByRole :=
      (s.electionIdPastByRole.getOrInsert (s.store c).roleName).2
        }).primaryConnectionExists (s.store c).roleName).1 = true
  · have hP : primaryExistsSpec s (s.store c).roleName := hex.mp hexb
    by_cases hidb : (s.electionIdPastByRole.getOrInsert
        (s.store c).roleName).1 = (s.store c).electionId
    · have hicp : isCurrentPrimarySpec s (s.store c) := by
        rw [RoleMap.getOrInsert_fst] at hidb
        refine ⟨?_, hidb⟩
        rw [← hidb]
        exact primaryExistsSpec_stored_isSome hP
      rw [if_pos hexb, if_pos hidb]
      refine ⟨Eq.refl _, Eq.refl _, RoleMap.getOrInsert_fst _ _, ?_, ?_, ?_⟩
      · constructor
        · intro _
          exact ⟨hP, hicp⟩
        · intro _
          exact Eq.refl _
      · constructor
        · intro hcontra
          exact StatusCode.noConfusion hcontra
        · intro hcontra
          exact absurd hicp hcontra.2
      · constructor
        · intro hcontra
          exact StatusCode.noConfusion hcontra
        · intro hcontra
          exact absurd hP hcontra
    · have hnicp : ¬ isCurrentPrimarySpec s (s.store c) := by
        intro hicp
        rw [RoleMap.getOrInsert_fst] at hidb
        exact hidb hicp.2
      rw [if_pos hexb, if_neg hidb]
      refine ⟨Eq.refl _, Eq.refl _, RoleMap.getOrInsert_fst _ _, ?_, ?_, ?_⟩
      · constructor
        · intro hcontra
          exact StatusCode.noConfusion hcontra
        · intro hcontra
          exact absurd hcontra.2 hnicp
      · constructor
        · intro _
          exact ⟨hP, hnicp⟩
        · intro _
          exact Eq.refl _
      · constructor
        · intro hcontra
          exact StatusCode.noConfusion hcontra
        · intro hcontra
          exact absurd hP hcontra
  · have hnP : ¬ primaryExistsSpec s (s.store c).roleName :=
      fun hp => hexb (hex.mpr hp)
    rw [if_neg hexb]
    refine ⟨Eq.refl _, Eq.refl _, RoleMap.getOrInsert_fst _ _, ?_, ?_, ?_⟩
    · constructor
      · intro hcontra
        exact StatusCode.noConfusion hcontra
      · intro hcontra
        exact absurd hcontra.1 hnP
    · constructor
      · intro hcontra
        exact StatusCode.noConfusion hcontra
      · intro hcontra
        exact absurd hcontra.1 hnP
    · constructor
      · intro _
        exact hnP
      · intro _
        exact Eq.refl _

/-! ## Claim C8: the high-water mark is monotone -/

/-- C8: over any trace of manager operations (arbitration updates,
disconnects, authorisation checks, packet-in deliveries), once an election id
has been accepted for a role — the map holds a defined value — every later
state holds a defined value at least as large for that role: no operation
lowers or clears it. -/
theorem c8_high_water_mark_monotone (ops : List ManagerOp)
    (s : SdnControllerManager) (r : Option String) (v : Nat)
    (h : s.electionIdPastByRole.find? r = some (some v)) :
    ∃ w, (applyOps s ops).electionIdPastByRole.find? r = some (some w) ∧
      v ≤ w :=
  mono_applyOps ops s s.electionIdPastByRole (MapMono.rfl _) r v h

/-- C8 witness: after the primary with election id 10 disconnects, a
controller re-arbitrates with the lower id 4, an authorisation check runs, and
a packet-in is delivered, the default role's high-water mark is still a
defined value of at least 10. -/
theorem c8_high_water_mark_monotone_witness :
    mgrPrimary10.electionIdPastByRole.find? none = some (some 10) ∧
    ∃ w, (applyOps mgrPrimary10
        traceLowerId).electionIdPastByRole.find? none = some (some w) ∧
      10 ≤ w :=
  ⟨by decide,
    c8_high_water_mark_monotone traceLowerId mgrPrimary10 none 10 (by decide)⟩

/-! ## Claim C10: default-inserted absent entries never authorise -/

theorem noDef_getOrInsert {m : RoleMap} {r : Option String}
    (k : Option String) (h : m.find? r = none ∨ m.find? r = some none) :
    ((m.getOrInsert k).2).find? r = none ∨
      ((m.getOrInsert k).2).find? r = some none := by
  rw [RoleMap.getOrInsert_find?]
  split
  · exact Or.inr (Eq.refl _)
  · exact h

theorem getOrInsert_makes_present {m : RoleMap} {k : Option String}
    (h : m.find? k = none ∨ m.find? k = some none) :
    ((m.getOrInsert k).2).find? k = some none := by
  rw [RoleMap.getOrInsert_find?]
  rcases h with h | h
  · simp [h]
  · simp [h]

namespace SdnControllerManager

theorem noDef_sendArbitrationResponse (s : SdnControllerManager) (c : Nat)
    {r : Option String} (h : neverAcceptedDefined s r) :
    neverAcceptedDefined (s.sendArbitrationResponse c).1 r := by
  unfold neverAcceptedDefined at h ⊢
  rw [sendArbitrationResponse_state]
  exact noDef_getOrInsert _ (noDef_getOrInsert _ h)

theorem noDef_informConnectionsGo {r : Option String}
    (roleName : Option String) (l : List Nat) :
    ∀ s : SdnControllerManager, neverAcceptedDefined s r →
      neverAcceptedDefined (informConnectionsGo s roleName l).1 r := by
  induction l with
  | nil => intro s h; exact h
  | cons c rest ih =>
    intro s h
    unfold informConnectionsGo
    dsimp only
    by_cases hc : (s.store c).roleName = roleName
    · simp only [if_pos hc]
      exact ih _ (noDef_sendArbitrationResponse s c h)
    · simp only [if_neg hc]
      exact ih s h

theorem noDef_disconnect (s : SdnControllerManager) (c : Nat)
    {r : Option String} (h : neverAcceptedDefined s r) :
    neverAcceptedDefined (s.disconnect c).1 r := by
  unfold disconnect
  dsimp only
  split
  · split
    · split
      · exact noDef_informConnectionsGo _ _ _
          (noDef_getOrInsert _ h)
      · exact noDef_getOrInsert _ h
    · exact h
  · exact h

theorem noDef_sendStreamMessageToPrimary (s : SdnControllerManager)
    (roleName : Option String) (response : StreamMessageResponse)
    {r : Option String} (h : neverAcceptedDefined s r) :
    neverAcceptedDefined (s.sendStreamMessageToPrimary roleName
      response).2.1 r :=
  noDef_getOrInsert _ h

theorem allowRequest_denied_of_noDef {s : SdnControllerManager}
    {r : Option String} (h : neverAcceptedDefined s r) (e : Nat) :
    (s.allowRequest r (some e)).code = StatusCode.permissionDenied := by
  unfold allowRequest
  rcases h with h | h <;> simp [h]

theorem sendStreamMessageToPrimary_false_of_noDef {s : SdnControllerManager}
    {r : Option String} (h : neverAcceptedDefined s r)
    (response : StreamMessageResponse) :
    (s.sendStreamMessageToPrimary r response).1 = false := by
  unfold sendStreamMessageToPrimary
  dsimp only
  have h1 : (s.electionIdPastByRole.getOrInsert r).1 = none := by
    rw [RoleMap.getOrInsert_fst]
    rcases h with h | h <;> simp [RoleMap.stored, h]
  rw [h1]
  simp

end SdnControllerManager

/-- C10: for a role `r` for which no defined election id was ever accepted
(the high-water-mark map has no entry, or only a default-inserted absent one):
`AllowRequest(r, e)` is permission-denied for every defined `e`;
`SendStreamMessageToPrimary(r, m)` returns false and leaves behind exactly an
entry mapped to absent; `SendArbitrationResponse` (for a connection of role
`r`) likewise creates only an absent entry; none of these read-only
operations — nor a disconnect — can make the role authorised, so the same
queries still deny afterwards. -/
theorem c10_absent_entries_never_authorize (s : SdnControllerManager)
    (r : Option String) (h : neverAcceptedDefined s r) :
    (∀ e, (s.allowRequest r (some e)).code = StatusCode.permissionDenied) ∧
    (∀ resp, (s.sendStreamMessageToPrimary r resp).1 = false) ∧
    (∀ resp, (s.sendStreamMessageToPrimary r
      resp).2.1.electionIdPastByRole.find? r = some none) ∧
    (∀ resp, neverAcceptedDefined (s.sendStreamMessageToPrimary r
      resp).2.1 r) ∧
    (∀ c, neverAcceptedDefined (s.sendArbitrationResponse c).1 r) ∧
    (∀ c, (s.store c).roleName = r →
      (s.sendArbitrationResponse c).1.electionIdPastByRole.find? r =
        some none) ∧
    (∀ c, neverAcceptedDefined (s.disconnect c).1 r) ∧
    (∀ resp e, ((s.sendStreamMessageToPrimary r resp).2.1.allowRequest r
      (some e)).code = StatusCode.permissionDenied) ∧
    (∀ resp resp', ((s.sendStreamMessageToPrimary r
      resp).2.1.sendStreamMessageToPrimary r resp').1 = false) ∧
    (∀ c e, ((s.sendArbitrationResponse c).1.allowRequest r
      (some e)).code = StatusCode.permissionDenied) := by
  refine ⟨SdnControllerManager.allowRequest_denied_of_noDef h,
    SdnControllerManager.sendStreamMessageToPrimary_false_of_noDef h,
    fun resp => ?_,
    fun resp => SdnControllerManager.noDef_sendStreamMessageToPrimary
      s r resp h,
    fun c => SdnControllerManager.noDef_sendArbitrationResponse s c h,
    fun c hc => ?_,
    fun c => SdnControllerManager.noDef_disconnect s c h,
    fun resp e => SdnControllerManager.allowRequest_denied_of_noDef
      (SdnControllerManager.noDef_sendStreamMessageToPrimary s r resp h) e,
    fun resp resp' =>
      SdnControllerManager.sendStreamMessageToPrimary_false_of_noDef
        (SdnControllerManager.noDef_sendStreamMessageToPrimary s r resp h)
        resp',
    fun c e => SdnControllerManager.allowRequest_denied_of_noDef
      (SdnControllerManager.noDef_sendArbitrationResponse s c h) e⟩
  · exact getOrInsert_makes_present h
  · rw [SdnControllerManager.sendArbitrationResponse_state]
    show ((((s.electionIdPastByRole.getOrInsert
        (s.store c).roleName).2).getOrInsert
          (s.store c).roleName).2).find? r = some none
    rw [hc]
    exact getOrInsert_makes_present (Or.inr (getOrInsert_makes_present h))

/-- C10 witness: `mgrOneBackup` has a default-inserted absent entry for the
default role; authorisation with election id 3 is denied, a packet-in
delivery returns false and leaves the entry absent, and a repeated delivery
still returns false. -/
theorem c10_absent_entries_never_authorize_witness :
    neverAcceptedDefined mgrOneBackup none ∧
    (mgrOneBackup.allowRequest none (some 3)).code =
      StatusCode.permissionDenied ∧
    (mgrOneBackup.sendStreamMessageToPrimary none
      (StreamMessageResponse.payload 7)).1 = false ∧
    (mgrOneBackup.sendStreamMessageToPrimary none
      (StreamMessageResponse.payload 7)).2.1.electionIdPastByRole.find?
        none = some none ∧
    ((mgrOneBackup.sendStreamMessageToPrimary none
      (StreamMessageResponse.payload 7)).2.1.sendStreamMessageToPrimary none
        (StreamMessageResponse.payload 8)).1 = false := by
  obtain ⟨h1, h2, h3, _, _, _, _, _, h9, _⟩ :=
    c10_absent_entries_never_authorize mgrOneBackup none (Or.inr (by decide))
  exact ⟨Or.inr (by decide), h1 3, h2 _, h3 _, h9 _ _⟩

end P4rt